import Mathlib

/-!
Shallow embedding of the scoring and aggregation engine of
src/stock_predictor.py: technical indicators, sentiment aggregation,
fundamental scoring, key metrics (Piotroski F-Score), the composite
predictor and the batch screener.  Python floats are modelled by exact
rationals (every division the code performs is guarded, so no NaN or
infinity arises on the modelled paths); a scorer result whose status is
not "ok" is modelled by `none`; the external collaborators (yfinance
fetch, Google News feed, the VADER analyzer) are oracle parameters.
-/

namespace StockPredictor

/-- np.clip(x, -1, 1). -/
def clip (x : ℚ) : ℚ := min 1 (max (-1) x)

/-- Arithmetic mean of a list of rationals (callers guard against []). -/
def mean (l : List ℚ) : ℚ := l.sum / (l.length : ℚ)

/-- The last n entries of a list: pandas rolling(n).mean() evaluated at the
final index sees exactly these entries. -/
def lastN (n : ℕ) (l : List ℚ) : List ℚ := l.drop (l.length - n)

/-- Python round(x, 1), as used on the confidence value.  (Python rounds
half to even on binary floats; on the exact rationals of this model the
midpoint case is immaterial to every claim below, and round-half-up is
used.) -/
def roundTenth (x : ℚ) : ℚ := ((round (x * 10) : ℤ) : ℚ) / 10

-- Section 1 constants of the source file.
def SMA_SHORT : ℕ := 20
def SMA_LONG : ℕ := 50
def RSI_PERIOD : ℕ := 14
def TECH_SMA_WEIGHT : ℚ := 40/100
def TECH_RSI_WEIGHT : ℚ := 35/100
def TECH_MOMENTUM_WEIGHT : ℚ := 25/100
def SENTIMENT_STOCK_WEIGHT : ℚ := 50/100
def SENTIMENT_SECTOR_WEIGHT : ℚ := 30/100
def SENTIMENT_MARKET_WEIGHT : ℚ := 20/100
def FUND_REVENUE_WEIGHT : ℚ := 20/100
def FUND_MARGIN_WEIGHT : ℚ := 15/100
def FUND_PROFIT_WEIGHT : ℚ := 20/100
def FUND_DEBT_EQUITY_WEIGHT : ℚ := 20/100
def FUND_CURRENT_RATIO_WEIGHT : ℚ := 10/100
def FUND_ROE_WEIGHT : ℚ := 15/100
def WEIGHT_TECHNICAL : ℚ := 45/100
def WEIGHT_FUNDAMENTAL : ℚ := 30/100
def WEIGHT_SENTIMENT : ℚ := 25/100
def BUY_THRESHOLD : ℚ := 3/10
def SELL_THRESHOLD : ℚ := -(3/10)

/-! ## Section 5: Technical Analysis (calculate_technical_indicators) -/

/-- The "ok" payload of calculate_technical_indicators. -/
structure TechOk where
  score : ℚ
  sma_signal : ℚ
  rsi_signal : ℚ
  rsi_value : ℚ
  momentum_signal : ℚ
  sma_short : ℚ
  sma_long : ℚ
  current_price : ℚ
deriving DecidableEq

/-- close.diff(): day-over-day deltas (pandas makes the first entry NaN,
which .where turns into 0 gain and 0 loss; with at least 50 observations
that entry never reaches the trailing 14-element window). -/
def priceDeltas (close : List ℚ) : List ℚ :=
  List.zipWith (fun a b => b - a) close close.tail

/-- gain.rolling(RSI_PERIOD).mean().iloc[-1]: mean of the positive parts of
the last 14 deltas. -/
def avgGain14 (close : List ℚ) : ℚ :=
  mean ((lastN RSI_PERIOD (priceDeltas close)).map fun d => max d 0)

/-- loss.rolling(RSI_PERIOD).mean().iloc[-1]: mean of the negative parts
(negated) of the last 14 deltas. -/
def avgLoss14 (close : List ℚ) : ℚ :=
  mean ((lastN RSI_PERIOD (priceDeltas close)).map fun d => max (-d) 0)

/-- The raw RSI: 100 when the average loss is zero, else 100 - 100/(1+rs). -/
def rsiValue (close : List ℚ) : ℚ :=
  if avgLoss14 close = 0 then 100
  else 100 - 100 / (1 + avgGain14 close / avgLoss14 close)

/-- The RSI branch mapping of the source (lines 997-1004), clamped. -/
def rsiSignal (close : List ℚ) : ℚ :=
  clip (if 70 ≤ rsiValue close then -((rsiValue close - 70) / 30)
        else if rsiValue close ≤ 30 then (30 - rsiValue close) / 30
        else (rsiValue close - 50) / 40)

def smaShortVal (close : List ℚ) : ℚ := mean (lastN SMA_SHORT close)

def smaLongVal (close : List ℚ) : ℚ := mean (lastN SMA_LONG close)

/-- SMA crossover signal: 0 on a zero long average, else the clamped scaled
percentage difference. -/
def smaSignal (close : List ℚ) : ℚ :=
  if smaLongVal close = 0 then 0
  else clip ((smaShortVal close - smaLongVal close) / smaLongVal close * 10)

/-- Momentum signal: blend of 5-day and 20-day returns (iloc[-5], iloc[-20]),
zero for a zero base price, zero when fewer than 20 observations. -/
def momentumSignal (close : List ℚ) : ℚ :=
  if 20 ≤ close.length then
    let last := close.getD (close.length - 1) 0
    let c5 := close.getD (close.length - 5) 0
    let c20 := close.getD (close.length - 20) 0
    let ret5 := if c5 ≠ 0 then (last - c5) / c5 else 0
    let ret20 := if c20 ≠ 0 then (last - c20) / c20 else 0
    clip ((ret5 * (6/10) + ret20 * (4/10)) * 5)
  else 0

/-- calculate_technical_indicators (source lines 966-1031). -/
def calculate_technical_indicators (price_df : Option (List ℚ)) : Option TechOk :=
  match price_df with
  | none => none
  | some close =>
    if close.length < SMA_LONG then none
    else
      let composite := smaSignal close * TECH_SMA_WEIGHT
        + rsiSignal close * TECH_RSI_WEIGHT
        + momentumSignal close * TECH_MOMENTUM_WEIGHT
      some { score := clip composite
             sma_signal := smaSignal close
             rsi_signal := rsiSignal close
             rsi_value := rsiValue close
             momentum_signal := momentumSignal close
             sma_short := smaShortVal close
             sma_long := smaLongVal close
             current_price := close.getD (close.length - 1) 0 }

/-! ## Section 6: Sentiment Analysis (analyze_sentiment) -/

/-- One headline item: a title and the mutable sentiment_score slot the
function writes into. -/
structure Headline where
  title : String
  sentiment_score : Option ℚ
deriving DecidableEq

/-- The news dict returned by fetch_news_headlines: one list per tag-set. -/
structure NewsDict where
  stock : List Headline
  sector : List Headline
  market : List Headline
deriving DecidableEq

/-- The "ok" payload of analyze_sentiment. -/
structure SentimentOk where
  score : ℚ
  stock_sentiment : ℚ
  sector_sentiment : ℚ
  market_sentiment : ℚ
  headline_count : ℕ
  news_with_scores : NewsDict
deriving DecidableEq

/-- One iteration of the category loop (source lines 1045-1060): the items
after the in-place writes, and the compound scores collected from the items
with a non-empty title. -/
def scoreHeadlines (vader : String → ℚ) (headlines : List Headline) :
    List Headline × List ℚ :=
  if headlines = [] then (headlines, [])
  else
    (headlines.map fun item =>
       if item.title ≠ "" then { item with sentiment_score := some (vader item.title) }
       else item,
     (headlines.filter fun item => item.title ≠ "").map fun item => vader item.title)

/-- analyze_sentiment (source lines 1038-1079).  The Python function mutates
news_dict in place and returns it under "news_with_scores"; the mutation is
modelled by explicit state passing: the second component is the state of the
caller's news structure after the call. -/
def analyze_sentiment (vader : String → ℚ) (news_dict : NewsDict) :
    Option SentimentOk × NewsDict :=
  let stockR := scoreHeadlines vader news_dict.stock
  let sectorR := scoreHeadlines vader news_dict.sector
  let marketR := scoreHeadlines vader news_dict.market
  let stockScore := if stockR.2 = [] then 0 else mean stockR.2
  let sectorScore := if sectorR.2 = [] then 0 else mean sectorR.2
  let marketScore := if marketR.2 = [] then 0 else mean marketR.2
  let total := stockR.2.length + sectorR.2.length + marketR.2.length
  let mutated : NewsDict := { stock := stockR.1, sector := sectorR.1, market := marketR.1 }
  if total = 0 then (none, mutated)
  else
    let composite := stockScore * SENTIMENT_STOCK_WEIGHT
      + sectorScore * SENTIMENT_SECTOR_WEIGHT
      + marketScore * SENTIMENT_MARKET_WEIGHT
    (some { score := clip composite
            stock_sentiment := stockScore
            sector_sentiment := sectorScore
            market_sentiment := marketScore
            headline_count := total
            news_with_scores := mutated }, mutated)

/-! ## Section 7: Fundamental Analysis (analyze_fundamentals) -/

/-- A financial-statement table: line-item label to period values, most
recent period first (a pandas DataFrame indexed by label). -/
abbrev FinTable := List (String × List ℚ)

/-- df.loc[label] for an association-list table. -/
def findRow (df : FinTable) (label : String) : Option (List ℚ) :=
  (df.find? fun p => p.1 = label).map Prod.snd

/-- The label loop of the source: the first of `labels` present in the
table's index. -/
def firstRow (df : FinTable) (labels : List String) : Option (List ℚ) :=
  labels.findSome? (findRow df)

/-- First matching row's .iloc[0]; a matching row with no periods raises
IndexError in Python, which the enclosing try swallows, skipping the block:
modelled as none. -/
def firstRowHead (df : FinTable) (labels : List String) : Option ℚ :=
  (firstRow df labels).bind List.head?

/-- The yfinance info mapping, restricted to the fields the engine reads. -/
structure Info where
  sector : Option String
  industry : Option String
  profitMargins : Option ℚ
  returnOnEquity : Option ℚ
  trailingPE : Option ℚ
  priceToBook : Option ℚ
  debtToEquity : Option ℚ
  currentRatio : Option ℚ
  marketCap : Option ℚ
deriving DecidableEq

/-- An info mapping with every field absent ({}). -/
def emptyInfo : Info :=
  { sector := none, industry := none, profitMargins := none, returnOnEquity := none
    trailingPE := none, priceToBook := none, debtToEquity := none
    currentRatio := none, marketCap := none }

def revLabels : List String := ["Total Revenue", "TotalRevenue", "Revenue"]
def niLabels : List String := ["Net Income", "NetIncome", "Net Income Common Stockholders"]
def tdLabels : List String := ["Total Debt", "TotalDebt", "Long Term Debt And Capital Lease Obligation"]
def eqLabels : List String :=
  ["Stockholders Equity", "StockholdersEquity", "Total Equity Gross Minority Interest", "Common Stock Equity"]
def caLabels : List String := ["Current Assets", "CurrentAssets", "Total Current Assets"]
def clLabels : List String := ["Current Liabilities", "CurrentLiabilities", "Total Current Liabilities"]

/-- QoQ revenue growth signal (source lines 1095-1111). -/
def revenueGrowthSignal (quarterly_df : Option FinTable) : Option ℚ :=
  match quarterly_df with
  | none => none
  | some df =>
    if df = [] then none
    else match firstRow df revLabels with
      | none => none
      | some row =>
        if 2 ≤ row.length then
          let latest := row.getD 0 0
          let prev := row.getD 1 0
          if prev ≠ 0 then some (clip ((latest - prev) / |prev| * 5)) else none
        else none

/-- Profit-margin signal (source lines 1114-1128): piecewise-linear bands. -/
def profitMarginSignal (info : Info) : Option ℚ :=
  match info.profitMargins with
  | none => none
  | some margin =>
    some (clip (if 20/100 < margin then min (margin * 2) 1
                else if 10/100 < margin then margin * 3 - 30/100
                else if 0 < margin then margin * 2 - 20/100
                else max (margin * 2) (-1)))

/-- QoQ profit growth signal (source lines 1131-1147). -/
def profitGrowthSignal (quarterly_df : Option FinTable) : Option ℚ :=
  match quarterly_df with
  | none => none
  | some df =>
    if df = [] then none
    else match firstRow df niLabels with
      | none => none
      | some row =>
        if 2 ≤ row.length then
          let latest := row.getD 0 0
          let prev := row.getD 1 0
          if prev ≠ 0 then some (clip ((latest - prev) / |prev| * 5)) else none
        else none

/-- Debt-to-equity block (source lines 1150-1181): (signal, raw ratio).
Non-positive equity gives the distress signal -1 with no raw ratio. -/
def deBlock (balance_sheet_df : Option FinTable) : Option ℚ × Option ℚ :=
  match balance_sheet_df with
  | none => (none, none)
  | some df =>
    if df = [] then (none, none)
    else match firstRowHead df tdLabels, firstRowHead df eqLabels with
      | some total_debt, some stockholders_equity =>
        if stockholders_equity ≤ 0 then (some (-1), none)
        else
          let r := total_debt / stockholders_equity
          (some (if r < 5/10 then 1 else if r < 1 then 5/10 else if r < 2 then -(3/10) else -1),
           some r)
      | _, _ => (none, none)

/-- Current-ratio block (source lines 1184-1213): (signal, raw ratio). -/
def crBlock (balance_sheet_df : Option FinTable) : Option ℚ × Option ℚ :=
  match balance_sheet_df with
  | none => (none, none)
  | some df =>
    if df = [] then (none, none)
    else match firstRowHead df caLabels, firstRowHead df clLabels with
      | some current_assets, some current_liabilities =>
        if current_liabilities ≠ 0 then
          let r := current_assets / current_liabilities
          (some (if 2 ≤ r then 1 else if 15/10 ≤ r then 6/10 else if 1 ≤ r then 2/10
                 else if 5/10 ≤ r then -(5/10) else -1),
           some r)
        else (none, none)
      | _, _ => (none, none)

/-- Return-on-equity signal (source lines 1216-1233). -/
def roeSignal (info : Info) : Option ℚ :=
  match info.returnOnEquity with
  | none => none
  | some roe =>
    some (clip (if 25/100 ≤ roe then 1 else if 15/100 ≤ roe then 7/10
                else if 10/100 ≤ roe then 4/10 else if 0 ≤ roe then 1/10
                else max (roe * 3) (-1)))

/-- The "ok" payload of analyze_fundamentals. -/
structure FundOk where
  score : ℚ
  revenue_growth : Option ℚ
  profit_margin : Option ℚ
  profit_growth : Option ℚ
  debt_to_equity : Option ℚ
  current_ratio : Option ℚ
  roe : Option ℚ
  available_signals : ℕ
  raw_margin : Option ℚ
  raw_de_ratio : Option ℚ
  raw_current_ratio : Option ℚ
  raw_roe : Option ℚ
deriving DecidableEq

/-- A present signal as a one-entry slice of the signals dict. -/
def optSignal (name : String) : Option ℚ → List (String × ℚ)
  | some v => [(name, v)]
  | none => []

/-- The signals dict in insertion order. -/
def fundSignalList (quarterly_df : Option FinTable) (info : Info)
    (balance_sheet_df : Option FinTable) : List (String × ℚ) :=
  optSignal "revenue_growth" (revenueGrowthSignal quarterly_df)
    ++ optSignal "profit_margin" (profitMarginSignal info)
    ++ optSignal "profit_growth" (profitGrowthSignal quarterly_df)
    ++ optSignal "debt_to_equity" (deBlock balance_sheet_df).1
    ++ optSignal "current_ratio" (crBlock balance_sheet_df).1
    ++ optSignal "roe" (roeSignal info)

/-- analyze_fundamentals (source lines 1086-1267). -/
def analyze_fundamentals (quarterly_df : Option FinTable) (info : Info)
    (balance_sheet_df : Option FinTable) : Option FundOk :=
  let signals := fundSignalList quarterly_df info balance_sheet_df
  if signals.length = 0 then none
  else
    let composite :=
      if signals.length = 6 then
        (revenueGrowthSignal quarterly_df).getD 0 * FUND_REVENUE_WEIGHT
          + (profitMarginSignal info).getD 0 * FUND_MARGIN_WEIGHT
          + (profitGrowthSignal quarterly_df).getD 0 * FUND_PROFIT_WEIGHT
          + ((deBlock balance_sheet_df).1).getD 0 * FUND_DEBT_EQUITY_WEIGHT
          + ((crBlock balance_sheet_df).1).getD 0 * FUND_CURRENT_RATIO_WEIGHT
          + (roeSignal info).getD 0 * FUND_ROE_WEIGHT
      else (signals.map Prod.snd).sum / (signals.length : ℚ)
    some { score := clip composite
           revenue_growth := revenueGrowthSignal quarterly_df
           profit_margin := profitMarginSignal info
           profit_growth := profitGrowthSignal quarterly_df
           debt_to_equity := (deBlock balance_sheet_df).1
           current_ratio := (crBlock balance_sheet_df).1
           roe := roeSignal info
           available_signals := signals.length
           raw_margin := info.profitMargins
           raw_de_ratio := (deBlock balance_sheet_df).2
           raw_current_ratio := (crBlock balance_sheet_df).2
           raw_roe := info.returnOnEquity }

/-! ## Section 7b: Key Financial Metrics (compute_key_metrics) -/

def taLabels : List String := ["Total Assets", "TotalAssets"]
def cfoLabels : List String :=
  ["Operating Cash Flow", "Total Cash From Operating Activities", "Cash Flow From Continuing Operating Activities"]
def ltdLabels : List String := ["Long Term Debt", "LongTermDebt", "Long Term Debt And Capital Lease Obligation"]
def sharesLabels : List String := ["Ordinary Shares Number", "Share Issued", "Common Stock"]
def gpLabels : List String := ["Gross Profit", "GrossProfit"]
def ebitLabels : List String := ["EBIT", "Operating Income", "OperatingIncome"]

/-- _safe_get_row (source lines 1274-1281). -/
def safe_get_row (df : Option FinTable) (labels : List String) : Option (List ℚ) :=
  match df with
  | none => none
  | some t => if t = [] then none else firstRow t labels

/-- sum(values[:min(k, len)]) / min(k, len). -/
def avgFirst (k : ℕ) (l : List ℚ) : ℚ :=
  ((l.take (min k l.length)).sum) / ((min k l.length : ℕ) : ℚ)

/-- Per-year ROE values over up to 5 periods, skipping zero-equity years
(source lines 1327-1333). -/
def roeValues (ni eq : List ℚ) : List ℚ :=
  (List.range (min (min ni.length eq.length) 5)).filterMap fun i =>
    if eq.getD i 0 ≠ 0 then some (ni.getD i 0 / eq.getD i 0) else none

/-- The multi-year ROE block (source lines 1321-1342):
(roe_latest, roe_3yr, roe_5yr). -/
def roeMetrics (annual_income annual_balance : Option FinTable) :
    Option ℚ × Option ℚ × Option ℚ :=
  match annual_income, annual_balance with
  | some _, some _ =>
    match safe_get_row annual_income niLabels, safe_get_row annual_balance eqLabels with
    | some ni, some eq =>
      let v := roeValues ni eq
      (v.head?,
       if 2 ≤ v.length then some (avgFirst 3 v) else none,
       if 4 ≤ v.length then some (avgFirst 5 v) else none)
    | _, _ => (none, none, none)
  | _, _ => (none, none, none)

/-- Per-year ROCE values over up to 5 periods, skipping years with zero
capital employed (source lines 1353-1361). -/
def roceValues (ebit ta cl : List ℚ) : List ℚ :=
  (List.range (min (min ebit.length (min ta.length cl.length)) 5)).filterMap fun i =>
    let ce := ta.getD i 0 - cl.getD i 0
    if ce ≠ 0 then some (ebit.getD i 0 / ce) else none

/-- The multi-year ROCE block (source lines 1345-1370):
(roce_latest, roce_3yr, roce_5yr). -/
def roceMetrics (annual_income annual_balance : Option FinTable) :
    Option ℚ × Option ℚ × Option ℚ :=
  match annual_income, annual_balance with
  | some _, some _ =>
    match safe_get_row annual_income ebitLabels, safe_get_row annual_balance taLabels,
          safe_get_row annual_balance clLabels with
    | some ebit, some ta, some cl =>
      let v := roceValues ebit ta cl
      (v.head?,
       if 2 ≤ v.length then some (avgFirst 3 v) else none,
       if 4 ≤ v.length then some (avgFirst 5 v) else none)
    | _, _, _ => (none, none, none)
  | _, _ => (none, none, none)

/-- Piotroski test 1 (source lines 1398-1401): net income > 0. -/
def pioTest1 (ni : List ℚ) : Bool := decide (0 < ni.getD 0 0)

/-- Piotroski test 2 (source lines 1403-1408): ROA > 0; false on zero total
assets. -/
def pioTest2 (ni ta : List ℚ) : Bool :=
  if ta.getD 0 0 ≠ 0 then decide (0 < ni.getD 0 0 / ta.getD 0 0) else false

/-- Piotroski test 3 (source lines 1410-1415): operating cash flow > 0;
false when the row is missing or empty. -/
def pioTest3 (cfo_row : Option (List ℚ)) : Bool :=
  match cfo_row with
  | some cfo => if 1 ≤ cfo.length then decide (0 < cfo.getD 0 0) else false
  | none => false

/-- Piotroski test 4 (source lines 1417-1422): CFO > net income; false when
the row is missing or empty. -/
def pioTest4 (ni : List ℚ) (cfo_row : Option (List ℚ)) : Bool :=
  match cfo_row with
  | some cfo => if 1 ≤ cfo.length then decide (ni.getD 0 0 < cfo.getD 0 0) else false
  | none => false

/-- Piotroski test 5 (source lines 1424-1431): long-term debt did not
increase; a missing or short row counts as a pass. -/
def pioTest5 (ltd_row : Option (List ℚ)) : Bool :=
  match ltd_row with
  | some ltd => if 2 ≤ ltd.length then decide (ltd.getD 0 0 ≤ ltd.getD 1 0) else true
  | none => true

/-- Piotroski test 6 (source lines 1433-1444): current ratio did not
decrease; false when the rows are missing, short, or a denominator is 0. -/
def pioTest6 (ca_row cl_row : Option (List ℚ)) : Bool :=
  match ca_row, cl_row with
  | some ca, some cl =>
    if 2 ≤ ca.length ∧ 2 ≤ cl.length then
      if cl.getD 0 0 ≠ 0 ∧ cl.getD 1 0 ≠ 0 then
        decide (ca.getD 1 0 / cl.getD 1 0 ≤ ca.getD 0 0 / cl.getD 0 0)
      else false
    else false
  | _, _ => false

/-- Piotroski test 7 (source lines 1446-1453): no increase in shares
outstanding; a missing or short row counts as a pass. -/
def pioTest7 (shares_row : Option (List ℚ)) : Bool :=
  match shares_row with
  | some sh => if 2 ≤ sh.length then decide (sh.getD 0 0 ≤ sh.getD 1 0) else true
  | none => true

/-- Piotroski test 8 (source lines 1455-1466): gross margin did not
decrease; false when rows are missing, short, or a revenue is 0. -/
def pioTest8 (gp_row rev_row : Option (List ℚ)) : Bool :=
  match gp_row, rev_row with
  | some gp, some rev =>
    if 2 ≤ gp.length ∧ 2 ≤ rev.length then
      if rev.getD 0 0 ≠ 0 ∧ rev.getD 1 0 ≠ 0 then
        decide (gp.getD 1 0 / rev.getD 1 0 ≤ gp.getD 0 0 / rev.getD 0 0)
      else false
    else false
  | _, _ => false

/-- Piotroski test 9 (source lines 1468-1479): asset turnover did not
decrease; false when rows are missing, short, or an asset value is 0. -/
def pioTest9 (rev_row : Option (List ℚ)) (ta : List ℚ) : Bool :=
  match rev_row with
  | some rev =>
    if 2 ≤ rev.length ∧ 2 ≤ ta.length then
      if ta.getD 0 0 ≠ 0 ∧ ta.getD 1 0 ≠ 0 then
        decide (rev.getD 1 0 / ta.getD 1 0 ≤ rev.getD 0 0 / ta.getD 0 0)
      else false
    else false
  | none => false

/-- The nine labeled test results, in source order. -/
def pioDetails (ni ta : List ℚ) (cfo_row ltd_row ca_row cl_row shares_row gp_row rev_row :
    Option (List ℚ)) : List (String × Bool) :=
  [("Net Income > 0", pioTest1 ni), ("ROA > 0", pioTest2 ni ta),
   ("Operating Cash Flow > 0", pioTest3 cfo_row), ("Cash Flow > Net Income", pioTest4 ni cfo_row),
   ("Long-term Debt Decreased", pioTest5 ltd_row), ("Current Ratio Increased", pioTest6 ca_row cl_row),
   ("No New Shares Issued", pioTest7 shares_row), ("Gross Margin Increased", pioTest8 gp_row rev_row),
   ("Asset Turnover Increased", pioTest9 rev_row ta)]

/-- The Piotroski F-Score block (source lines 1372-1484):
(piotroski_score, piotroski_details).  Both stay none unless all three
tables are given and the net-income and total-assets rows are present with
at least two periods (has_two_years). -/
def piotroskiMetrics (annual_income annual_balance cashflow : Option FinTable) :
    Option ℕ × Option (List (String × Bool)) :=
  match annual_income, annual_balance, cashflow with
  | some _, some _, some _ =>
    match safe_get_row annual_income niLabels, safe_get_row annual_balance taLabels with
    | some ni, some ta =>
      if 2 ≤ ni.length ∧ 2 ≤ ta.length then
        let details := pioDetails ni ta (safe_get_row cashflow cfoLabels)
          (safe_get_row annual_balance ltdLabels) (safe_get_row annual_balance caLabels)
          (safe_get_row annual_balance clLabels) (safe_get_row annual_balance sharesLabels)
          (safe_get_row annual_income gpLabels) (safe_get_row annual_income revLabels)
        (some (details.countP fun p => p.2), some details)
      else (none, none)
    | _, _ => (none, none)
  | _, _, _ => (none, none)

/-- The display-only metrics record. -/
structure Metrics where
  pe_ratio : Option ℚ
  price_to_book : Option ℚ
  debt_to_equity : Option ℚ
  current_ratio : Option ℚ
  roe_latest : Option ℚ
  roe_3yr : Option ℚ
  roe_5yr : Option ℚ
  roce_latest : Option ℚ
  roce_3yr : Option ℚ
  roce_5yr : Option ℚ
  piotroski_score : Option ℕ
  piotroski_details : Option (List (String × Bool))
  market_cap : Option ℚ
deriving DecidableEq

/-- compute_key_metrics (source lines 1284-1486). -/
def compute_key_metrics (info : Info) (annual_income annual_balance cashflow : Option FinTable) :
    Metrics :=
  let roe := roeMetrics annual_income annual_balance
  let roce := roceMetrics annual_income annual_balance
  let pio := piotroskiMetrics annual_income annual_balance cashflow
  { pe_ratio := info.trailingPE
    price_to_book := info.priceToBook
    debt_to_equity := info.debtToEquity.map fun d => d / 100
    current_ratio := info.currentRatio
    roe_latest := roe.1
    roe_3yr := roe.2.1
    roe_5yr := roe.2.2
    roce_latest := roce.1
    roce_3yr := roce.2.1
    roce_5yr := roce.2.2
    piotroski_score := pio.1
    piotroski_details := pio.2
    market_cap := info.marketCap }

/-! ## Section 8: Prediction Engine (generate_prediction) -/

/-- The "ok" payload of generate_prediction. -/
structure Prediction where
  action : String
  score : ℚ
  confidence : ℚ
  components : List (String × ℚ)
  weights : List (String × ℚ)
deriving DecidableEq

/-- A present component as a one-entry slice of the components dict. -/
def optComponent (name : String) : Option ℚ → List (String × ℚ)
  | some v => [(name, v)]
  | none => []

/-- generate_prediction (source lines 1570-1636).  The three arguments are
the scorer results reduced to what the function reads: some score when the
status is "ok", none for any other status. -/
def generate_prediction (technical sentiment fundamental : Option ℚ) : Option Prediction :=
  let components := optComponent "technical" technical
    ++ optComponent "fundamental" fundamental
    ++ optComponent "sentiment" sentiment
  let nominal := optComponent "technical" (technical.map fun _ => WEIGHT_TECHNICAL)
    ++ optComponent "fundamental" (fundamental.map fun _ => WEIGHT_FUNDAMENTAL)
    ++ optComponent "sentiment" (sentiment.map fun _ => WEIGHT_SENTIMENT)
  if components = [] then none
  else
    let total_weight := (nominal.map Prod.snd).sum
    let weights := if 0 < total_weight then nominal.map fun p => (p.1, p.2 / total_weight)
      else nominal
    let final_score := clip ((List.zipWith (fun c w => c.2 * w.2) components weights).sum)
    let action := if BUY_THRESHOLD ≤ final_score then "BUY"
      else if final_score ≤ SELL_THRESHOLD then "SELL"
      else "HOLD"
    let magnitude_conf := min (|final_score| / 1 * 50) 50
    let agreement_conf :=
      if 2 ≤ components.length then
        ((((components.map Prod.snd).filter fun v =>
            (decide (0 ≤ v)) == (decide (0 ≤ final_score))).length : ℕ) : ℚ)
          / ((components.length : ℕ) : ℚ) * 30
      else 10
    let data_conf := ((components.length : ℕ) : ℚ) / 3 * 20
    let confidence := max (min (magnitude_conf + agreement_conf + data_conf) 100) 5
    some { action := action
           score := final_score
           confidence := roundTenth confidence
           components := components
           weights := weights }

/-! ## Section 7c: Bulk Stock Screener (run_screener) -/

/-- The "ok" bundle of fetch_stock_data (source lines 809-818): the price
history plus the optional statement tables. -/
structure StockData where
  history : List ℚ
  info : Info
  quarterly_income : Option FinTable
  quarterly_balance : Option FinTable
  annual_income : Option FinTable
  annual_balance : Option FinTable
  cashflow : Option FinTable
deriving DecidableEq

/-- What one call to the external fetch_stock_data collaborator does for a
ticker: raise an exception, return a non-"ok" status dict, or return the
data bundle. -/
inductive FetchOutcome where
  | raises
  | fail
  | ok (data : StockData)
deriving DecidableEq

/-- get_stock_sector (source lines 749-751): Python `or` chain on falsy
values (absent key or empty string). -/
def orFalsy (o : Option String) (dflt : String) : String :=
  match o with
  | some s => if s = "" then dflt else s
  | none => dflt

def get_stock_sector (info : Info) : String :=
  orFalsy info.sector (orFalsy info.industry "General")

/-- One flattened screener result row (source lines 1539-1557). -/
structure Row where
  stock : String
  ticker : String
  action : String
  confidence : ℚ
  score : ℚ
  tech_score : Option ℚ
  sentiment_score : Option ℚ
  fundamental_score : Option ℚ
  pe : Option ℚ
  pb : Option ℚ
  roe : Option ℚ
  roce : Option ℚ
  piotroski : Option ℕ
  de : Option ℚ
  current_ratio : Option ℚ
  market_cap : Option ℚ
  cmp : Option ℚ
deriving DecidableEq

/-- The per-entry pipeline of the screener loop body, as one function:
none exactly when the entry is skipped (fetch raised, fetch status not
"ok", or composite prediction not "ok"). -/
def screenEntry (fetch : String → FetchOutcome) (newsFor : String → String → String → NewsDict)
    (vader : String → ℚ) (market : String) (entry : String × String) : Option Row :=
  match fetch entry.2 with
  | FetchOutcome.raises => none
  | FetchOutcome.fail => none
  | FetchOutcome.ok stock_data =>
    let info := stock_data.info
    let sector := get_stock_sector info
    let technical := calculate_technical_indicators (some stock_data.history)
    let sentiment := (analyze_sentiment vader (newsFor entry.1 sector market)).1
    let fundamental := analyze_fundamentals stock_data.quarterly_income info
      stock_data.quarterly_balance
    let key_metrics := compute_key_metrics info stock_data.annual_income
      stock_data.annual_balance stock_data.cashflow
    match generate_prediction (technical.map TechOk.score) (sentiment.map SentimentOk.score)
        (fundamental.map FundOk.score) with
    | none => none
    | some prediction =>
      some { stock := entry.1
             ticker := entry.2
             action := prediction.action
             confidence := prediction.confidence
             score := prediction.score
             tech_score := technical.map TechOk.score
             sentiment_score := sentiment.map SentimentOk.score
             fundamental_score := fundamental.map FundOk.score
             pe := key_metrics.pe_ratio
             pb := key_metrics.price_to_book
             roe := key_metrics.roe_latest
             roce := key_metrics.roce_latest
             piotroski := key_metrics.piotroski_score
             de := key_metrics.debt_to_equity
             current_ratio := key_metrics.current_ratio
             market_cap := key_metrics.market_cap
             cmp := technical.map TechOk.current_price }

/-- run_screener (source lines 1493-1563).  The loop over the stock dict's
entries in iteration order; `continue` on a raised exception, a non-"ok"
fetch, or a non-"ok" prediction. -/
def run_screener (fetch : String → FetchOutcome) (newsFor : String → String → String → NewsDict)
    (vader : String → ℚ) (market : String) : List (String × String) → List Row
  | [] => []
  | (name, ticker) :: rest =>
    match fetch ticker with
    | FetchOutcome.raises => run_screener fetch newsFor vader market rest
    | FetchOutcome.fail => run_screener fetch newsFor vader market rest
    | FetchOutcome.ok stock_data =>
      let info := stock_data.info
      let sector := get_stock_sector info
      let technical := calculate_technical_indicators (some stock_data.history)
      let sentiment := (analyze_sentiment vader (newsFor name sector market)).1
      let fundamental := analyze_fundamentals stock_data.quarterly_income info
        stock_data.quarterly_balance
      let key_metrics := compute_key_metrics info stock_data.annual_income
        stock_data.annual_balance stock_data.cashflow
      match generate_prediction (technical.map TechOk.score) (sentiment.map SentimentOk.score)
          (fundamental.map FundOk.score) with
      | none => run_screener fetch newsFor vader market rest
      | some prediction =>
        { stock := name
          ticker := ticker
          action := prediction.action
          confidence := prediction.confidence
          score := prediction.score
          tech_score := technical.map TechOk.score
          sentiment_score := sentiment.map SentimentOk.score
          fundamental_score := fundamental.map FundOk.score
          pe := key_metrics.pe_ratio
          pb := key_metrics.price_to_book
          roe := key_metrics.roe_latest
          roce := key_metrics.roce_latest
          piotroski := key_metrics.piotroski_score
          de := key_metrics.debt_to_equity
          current_ratio := key_metrics.current_ratio
          market_cap := key_metrics.market_cap
          cmp := technical.map TechOk.current_price } :: run_screener fetch newsFor vader market rest

/-! ## Claim-side specification functions -/

/-- Claim side (C1): the components of the blend, one per "ok" scorer, in
the order the source inserts them. -/
def presentComponents (technical sentiment fundamental : Option ℚ) : List (String × ℚ) :=
  optComponent "technical" technical ++ optComponent "fundamental" fundamental
    ++ optComponent "sentiment" sentiment

/-- Claim side (C1): the nominal weight of a component name. -/
def nominalWeight (name : String) : ℚ :=
  if name = "technical" then WEIGHT_TECHNICAL
  else if name = "fundamental" then WEIGHT_FUNDAMENTAL
  else WEIGHT_SENTIMENT

/-- Claim side (C1): the nominal weights of the present components, each
divided by their sum. -/
def renormalizedWeights (comps : List (String × ℚ)) : List (String × ℚ) :=
  comps.map fun p => (p.1, nominalWeight p.1 / (comps.map fun q => nominalWeight q.1).sum)

/-- Claim side (C7): the magnitude term min(|score|*50, 50). -/
def magnitudeTerm (score : ℚ) : ℚ := min (|score| * 50) 50

/-- Claim side (C7): the agreement term, (agreeing/components)*30 with at
least two components, a fixed 10 otherwise. -/
def agreementTerm (vals : List ℚ) (score : ℚ) : ℚ :=
  if 2 ≤ vals.length then
    (((vals.filter fun v => (decide (0 ≤ v)) == (decide (0 ≤ score))).length : ℕ) : ℚ)
      / ((vals.length : ℕ) : ℚ) * 30
  else 10

/-- Claim side (C7): the coverage term (components/3)*20. -/
def coverageTerm (n : ℕ) : ℚ := ((n : ℕ) : ℚ) / 3 * 20

/-! ## Helper lemmas -/

theorem neg_one_le_clip (x : ℚ) : -1 ≤ clip x :=
  le_min (by norm_num) (le_max_left _ _)

theorem clip_le_one (x : ℚ) : clip x ≤ 1 := min_le_left _ _

theorem roundTenth_bounds {x : ℚ} (h5 : 5 ≤ x) (h100 : x ≤ 100) :
    5 ≤ roundTenth x ∧ roundTenth x ≤ 100 := by
  have hl : (50 : ℤ) ≤ round (x * 10) := by
    rw [round_eq]
    exact Int.le_floor.2 (by push_cast; linarith)
  have hu : round (x * 10) ≤ 1000 := by
    rw [round_eq]
    have hle : x * 10 + 1 / 2 < ((1001 : ℤ) : ℚ) := by push_cast; linarith
    exact Int.lt_add_one_iff.mp (Int.floor_lt.2 hle)
  have hl' : (50 : ℚ) ≤ ((round (x * 10) : ℤ) : ℚ) := by exact_mod_cast hl
  have hu' : ((round (x * 10) : ℤ) : ℚ) ≤ 1000 := by exact_mod_cast hu
  unfold roundTenth
  constructor <;> linarith

/-! ## Theorems for the claims -/

/-- C1: for every triple of scorer results, generate_prediction includes a
component exactly when its status is "ok", takes the nominal weights
(technical 0.45, fundamental 0.30, sentiment 0.25) of the present
components, divides each by their sum so the effective weights sum to 1,
and returns the clamped weighted sum as the final score; with only
technical = 0.7 and sentiment = -0.2 usable the effective weights are
0.45/0.70 and 0.25/0.70, the final score 53/140 ≈ 0.379, and the action
BUY. -/
theorem generate_prediction_weight_redistribution :
    (∀ technical sentiment fundamental : Option ℚ,
      (generate_prediction technical sentiment fundamental = none ↔
        technical = none ∧ sentiment = none ∧ fundamental = none) ∧
      ∀ p, generate_prediction technical sentiment fundamental = some p →
        p.components = presentComponents technical sentiment fundamental ∧
        p.weights = renormalizedWeights (presentComponents technical sentiment fundamental) ∧
        (p.weights.map Prod.snd).sum = 1 ∧
        p.score = clip ((List.zipWith (fun c w => c.2 * w.2) p.components p.weights).sum)) ∧
    ((generate_prediction (some (7/10)) (some (-(2/10))) none).map
        (fun p => (p.score, p.action, p.weights)) =
      some (53/140, "BUY", [("technical", (45/100)/(70/100)), ("sentiment", (25/100)/(70/100))]) ∧
     |(53/140 : ℚ) - 379/1000| < 1/1000) := by
  constructor
  · intro technical sentiment fundamental
    constructor
    · rcases technical with _ | a <;> rcases sentiment with _ | b <;>
        rcases fundamental with _ | c <;>
        simp [generate_prediction, optComponent]
    · intro p hp
      rcases technical with _ | a <;> rcases sentiment with _ | b <;>
        rcases fundamental with _ | c <;>
        simp [generate_prediction, optComponent, WEIGHT_TECHNICAL, WEIGHT_FUNDAMENTAL,
          WEIGHT_SENTIMENT] at hp <;>
        subst hp <;>
        refine ⟨?_, ?_, ?_, ?_⟩ <;>
        (simp [presentComponents, renormalizedWeights, nominalWeight, optComponent,
           WEIGHT_TECHNICAL, WEIGHT_FUNDAMENTAL, WEIGHT_SENTIMENT] <;> norm_num)
  · exact ⟨by with_unfolding_all decide, by with_unfolding_all decide⟩

/-- C6: whenever a scorer result has status "ok", its score lies in
[-1, 1] (each scorer clamps its composite with np.clip). -/
theorem scorer_scores_clamped :
    (∀ price_df r, calculate_technical_indicators price_df = some r →
      -1 ≤ r.score ∧ r.score ≤ 1) ∧
    (∀ vader news r, (analyze_sentiment vader news).1 = some r →
      -1 ≤ r.score ∧ r.score ≤ 1) ∧
    (∀ quarterly_df info balance_sheet_df r,
      analyze_fundamentals quarterly_df info balance_sheet_df = some r →
      -1 ≤ r.score ∧ r.score ≤ 1) := by
  refine ⟨?_, ?_, ?_⟩
  · intro price_df r h
    rcases price_df with _ | close
    · simp [calculate_technical_indicators] at h
    · rw [calculate_technical_indicators] at h
      split at h
      · exact absurd h (by simp)
      · rw [Option.some_inj] at h
        subst h
        exact ⟨neg_one_le_clip _, clip_le_one _⟩
  · intro vader news r h
    rw [analyze_sentiment] at h
    split at h
    · exact absurd h (by simp)
    · rw [Option.some_inj] at h
      subst h
      exact ⟨neg_one_le_clip _, clip_le_one _⟩
  · intro quarterly_df info balance_sheet_df r h
    rw [analyze_fundamentals] at h
    split at h
    · exact absurd h (by simp)
    · rw [Option.some_inj] at h
      subst h
      exact ⟨neg_one_le_clip _, clip_le_one _⟩

/-- C7: every "ok" prediction's confidence is round(clamp(magnitude +
agreement + coverage, 5, 100), 1) and lies in [5, 100]; in particular a
composite with score 0 and a single usable component reports 16.7, not
below 5. -/
theorem generate_prediction_confidence_bounds :
    (∀ technical sentiment fundamental : Option ℚ, ∀ p,
      generate_prediction technical sentiment fundamental = some p →
        p.confidence = roundTenth (max (min (magnitudeTerm p.score
            + agreementTerm (p.components.map Prod.snd) p.score
            + coverageTerm p.components.length) 100) 5) ∧
        5 ≤ p.confidence ∧ p.confidence ≤ 100) ∧
    ((generate_prediction (some 0) none none).map
        (fun p => (p.score, p.components.length, p.confidence)) = some (0, 1, 167/10) ∧
     (5 : ℚ) ≤ 167/10) := by
  constructor
  · intro technical sentiment fundamental p hp
    rcases technical with _ | a <;> rcases sentiment with _ | b <;>
      rcases fundamental with _ | c <;>
      simp [generate_prediction, optComponent, WEIGHT_TECHNICAL, WEIGHT_FUNDAMENTAL,
        WEIGHT_SENTIMENT] at hp <;>
      subst hp <;>
      refine ⟨?_, roundTenth_bounds (le_max_right _ _)
        (max_le (min_le_right _ _) (by norm_num))⟩ <;>
      simp [magnitudeTerm, agreementTerm, coverageTerm]
  · exact ⟨by with_unfolding_all decide, by norm_num⟩

/-- C8: a price series of at least 50 observations whose day-over-day
deltas have zero average loss over the 14-period RSI window yields raw
RSI 100 and rsi_signal -1 (the RSI ≥ 70 branch at its maximum). -/
theorem rsi_zero_loss_max_overbought :
    ∀ close : List ℚ, 50 ≤ close.length → avgLoss14 close = 0 →
      (calculate_technical_indicators (some close)).map
        (fun r => (r.rsi_value, r.rsi_signal)) = some (100, -1) := by
  intro close h50 h0
  have hr : rsiValue close = 100 := by rw [rsiValue, if_pos h0]
  have hs : rsiSignal close = -1 := by
    rw [rsiSignal, hr, if_pos (by norm_num : (70 : ℚ) ≤ 100)]
    norm_num [clip]
  rw [calculate_technical_indicators]
  rw [if_neg (by simp only [SMA_LONG]; omega : ¬ close.length < SMA_LONG)]
  simp [hr, hs]

/-- Claim side (C3): the titles a tag-set actually gets scored on: those of
its headlines with a non-empty title. -/
def scoredTitles (items : List Headline) : List String :=
  (items.filter fun h => h.title ≠ "").map Headline.title

/-- Claim side (C3): per-tag-set average of the analyzer's compound scores,
0.0 for a tag-set with no scored headline. -/
def tagSetScore (vader : String → ℚ) (items : List Headline) : ℚ :=
  if scoredTitles items = [] then 0 else mean ((scoredTitles items).map vader)

theorem scoreHeadlines_snd (vader : String → ℚ) (items : List Headline) :
    (scoreHeadlines vader items).2 = (scoredTitles items).map vader := by
  by_cases h : items = [] <;>
    simp [scoreHeadlines, scoredTitles, h, List.map_map, Function.comp_def]

theorem optSignal_eq_nil {name : String} {o : Option ℚ} :
    optSignal name o = [] ↔ o = none := by
  cases o <;> simp [optSignal]

theorem optSignal_length_le (name : String) (o : Option ℚ) :
    (optSignal name o).length ≤ 1 := by
  cases o <;> simp [optSignal]

theorem fundSignalList_length_le (quarterly_df : Option FinTable) (info : Info)
    (balance_sheet_df : Option FinTable) :
    (fundSignalList quarterly_df info balance_sheet_df).length ≤ 6 := by
  rw [fundSignalList]
  simp only [List.length_append]
  have h1 := optSignal_length_le "revenue_growth" (revenueGrowthSignal quarterly_df)
  have h2 := optSignal_length_le "profit_margin" (profitMarginSignal info)
  have h3 := optSignal_length_le "profit_growth" (profitGrowthSignal quarterly_df)
  have h4 := optSignal_length_le "debt_to_equity" (deBlock balance_sheet_df).1
  have h5 := optSignal_length_le "current_ratio" (crBlock balance_sheet_df).1
  have h6 := optSignal_length_le "roe" (roeSignal info)
  omega

/-- C5: analyze_fundamentals returns insufficient data exactly when none of
the six signals is computable; with all six present the composite is the
fixed-weight sum (0.20/0.15/0.20/0.20/0.10/0.15), with one to five present
it is the arithmetic mean of the present signals, in every case clamped to
[-1, 1]; a one-signal input (profit margin 0.25) scores that signal's value
1/2, and a six-signal fixture takes the weighted sum 39/50. -/
theorem analyze_fundamentals_composite :
    (∀ quarterly_df info balance_sheet_df,
      (analyze_fundamentals quarterly_df info balance_sheet_df = none ↔
        revenueGrowthSignal quarterly_df = none ∧ profitMarginSignal info = none ∧
        profitGrowthSignal quarterly_df = none ∧ (deBlock balance_sheet_df).1 = none ∧
        (crBlock balance_sheet_df).1 = none ∧ roeSignal info = none) ∧
      (∀ r, analyze_fundamentals quarterly_df info balance_sheet_df = some r →
        r.available_signals = (fundSignalList quarterly_df info balance_sheet_df).length ∧
        1 ≤ r.available_signals ∧ r.available_signals ≤ 6 ∧
        (r.available_signals = 6 →
          r.score = clip ((revenueGrowthSignal quarterly_df).getD 0 * FUND_REVENUE_WEIGHT
            + (profitMarginSignal info).getD 0 * FUND_MARGIN_WEIGHT
            + (profitGrowthSignal quarterly_df).getD 0 * FUND_PROFIT_WEIGHT
            + ((deBlock balance_sheet_df).1).getD 0 * FUND_DEBT_EQUITY_WEIGHT
            + ((crBlock balance_sheet_df).1).getD 0 * FUND_CURRENT_RATIO_WEIGHT
            + (roeSignal info).getD 0 * FUND_ROE_WEIGHT)) ∧
        (r.available_signals ≠ 6 →
          r.score = clip (mean
            ((fundSignalList quarterly_df info balance_sheet_df).map Prod.snd))))) ∧
    ((analyze_fundamentals none { emptyInfo with profitMargins := some (1/4) } none).map
        (fun r => (r.score, r.available_signals)) = some (1/2, 1) ∧
     (analyze_fundamentals
        (some [("Total Revenue", [110, 100]), ("Net Income", [12, 10])])
        { emptyInfo with profitMargins := some (25/100), returnOnEquity := some (20/100) }
        (some [("Total Debt", [40]), ("Stockholders Equity", [100]),
               ("Current Assets", [60]), ("Current Liabilities", [30])])).map
        (fun r => (r.score, r.available_signals)) = some (39/50, 6)) := by
  constructor
  · intro quarterly_df info balance_sheet_df
    have hnil : fundSignalList quarterly_df info balance_sheet_df = [] ↔
        (revenueGrowthSignal quarterly_df = none ∧ profitMarginSignal info = none ∧
         profitGrowthSignal quarterly_df = none ∧ (deBlock balance_sheet_df).1 = none ∧
         (crBlock balance_sheet_df).1 = none ∧ roeSignal info = none) := by
      rw [fundSignalList]
      simp only [List.append_eq_nil]
      constructor
      · rintro ⟨⟨⟨⟨⟨h1, h2⟩, h3⟩, h4⟩, h5⟩, h6⟩
        exact ⟨optSignal_eq_nil.mp h1, optSignal_eq_nil.mp h2, optSignal_eq_nil.mp h3,
          optSignal_eq_nil.mp h4, optSignal_eq_nil.mp h5, optSignal_eq_nil.mp h6⟩
      · rintro ⟨h1, h2, h3, h4, h5, h6⟩
        exact ⟨⟨⟨⟨⟨optSignal_eq_nil.mpr h1, optSignal_eq_nil.mpr h2⟩,
          optSignal_eq_nil.mpr h3⟩, optSignal_eq_nil.mpr h4⟩, optSignal_eq_nil.mpr h5⟩,
          optSignal_eq_nil.mpr h6⟩
    constructor
    · simp only [analyze_fundamentals]
      split
      · rename_i hlen
        simp only [true_iff]
        exact hnil.mp (List.length_eq_zero.mp hlen)
      · rename_i hlen
        constructor
        · intro hx
          exact absurd hx (by simp)
        · rintro h6
          exact absurd (by rw [hnil.mpr h6]; rfl : (fundSignalList quarterly_df info
            balance_sheet_df).length = 0) hlen
    · intro r hr
      simp only [analyze_fundamentals] at hr
      split at hr
      · exact absurd hr (by simp)
      · rename_i hlen
        rw [Option.some_inj] at hr
        subst hr
        refine ⟨rfl, Nat.one_le_iff_ne_zero.mpr hlen,
          fundSignalList_length_le quarterly_df info balance_sheet_df, ?_, ?_⟩
        · intro h6
          simp only at h6 ⊢
          rw [if_pos h6]
        · intro h6
          simp only at h6 ⊢
          rw [if_neg h6, mean, List.length_map]
  · exact ⟨by with_unfolding_all decide, by with_unfolding_all decide⟩

/-- C3 counterexample: a non-empty stock tag-set whose only headline has an
empty title still yields insufficient data, so "ok whenever at least one
tag-set is non-empty" is false as stated. -/
theorem analyze_sentiment_empty_title_insufficient :
    (NewsDict.mk [Headline.mk "" none] [] []).stock ≠ [] ∧
    (analyze_sentiment (fun _ => 0) (NewsDict.mk [Headline.mk "" none] [] [])).1 = none := by
  with_unfolding_all decide

/-- C3 (amended): analyze_sentiment fails with insufficient data exactly
when no tag-set contains a headline with a non-empty title; otherwise it
returns "ok" with score 0.50*stock + 0.30*sector + 0.20*market clamped to
[-1, 1], where a tag-set with no scored headline (in particular an empty
tag-set) contributes 0.0 to the blend rather than being excluded from the
weighting. -/
theorem analyze_sentiment_blend :
    ∀ vader news,
      ((analyze_sentiment vader news).1 = none ↔
        scoredTitles news.stock = [] ∧ scoredTitles news.sector = [] ∧
        scoredTitles news.market = []) ∧
      (∀ r, (analyze_sentiment vader news).1 = some r →
        r.score = clip (tagSetScore vader news.stock * SENTIMENT_STOCK_WEIGHT
          + tagSetScore vader news.sector * SENTIMENT_SECTOR_WEIGHT
          + tagSetScore vader news.market * SENTIMENT_MARKET_WEIGHT) ∧
        r.stock_sentiment = tagSetScore vader news.stock ∧
        r.sector_sentiment = tagSetScore vader news.sector ∧
        r.market_sentiment = tagSetScore vader news.market) := by
  intro vader news
  have hs := scoreHeadlines_snd vader news.stock
  have hsec := scoreHeadlines_snd vader news.sector
  have hm := scoreHeadlines_snd vader news.market
  constructor
  · rw [analyze_sentiment]
    split
    · rename_i h
      simp only [hs, hsec, hm, List.length_map] at h
      simp only [true_iff]
      refine ⟨?_, ?_, ?_⟩ <;> rw [← List.length_eq_zero] <;> omega
    · rename_i h
      simp only [hs, hsec, hm, List.length_map] at h
      constructor
      · intro hx
        exact absurd hx (by simp)
      · rintro ⟨h1, h2, h3⟩
        rw [h1, h2, h3] at h
        simp at h
  · intro r hr
    rw [analyze_sentiment] at hr
    split at hr
    · exact absurd hr (by simp)
    · rw [Option.some_inj] at hr
      subst hr
      refine ⟨?_, ?_, ?_, ?_⟩ <;>
        simp [hs, hsec, hm, tagSetScore, List.map_eq_nil_iff]

/-- C9: analyze_sentiment writes the analyzer's compound score into every
headline item with a non-empty title, leaves other items alone, and the
news_with_scores field of an "ok" result is exactly the caller's news
structure as it stands after the call (the in-place mutation, modelled by
explicit state passing) — observably different from the pristine input. -/
theorem analyze_sentiment_mutates_input :
    (∀ vader news,
      ((analyze_sentiment vader news).2.stock = news.stock.map (fun item =>
         if item.title ≠ "" then { item with sentiment_score := some (vader item.title) }
         else item) ∧
       (analyze_sentiment vader news).2.sector = news.sector.map (fun item =>
         if item.title ≠ "" then { item with sentiment_score := some (vader item.title) }
         else item) ∧
       (analyze_sentiment vader news).2.market = news.market.map (fun item =>
         if item.title ≠ "" then { item with sentiment_score := some (vader item.title) }
         else item)) ∧
      ∀ r, (analyze_sentiment vader news).1 = some r →
        r.news_with_scores = (analyze_sentiment vader news).2) ∧
    ((analyze_sentiment (fun _ => 1/2) (NewsDict.mk [Headline.mk "up" none] [] [])).2 ≠
        NewsDict.mk [Headline.mk "up" none] [] [] ∧
     ((analyze_sentiment (fun _ => 1/2) (NewsDict.mk [Headline.mk "up" none] [] [])).1).map
        SentimentOk.news_with_scores =
       some (analyze_sentiment (fun _ => 1/2) (NewsDict.mk [Headline.mk "up" none] [] [])).2) := by
  constructor
  · intro vader news
    have hmap : ∀ items : List Headline, (scoreHeadlines vader items).1 = items.map (fun item =>
        if item.title ≠ "" then { item with sentiment_score := some (vader item.title) }
        else item) := by
      intro items
      by_cases h : items = [] <;> simp [scoreHeadlines, h]
    constructor
    · rw [analyze_sentiment]
      split <;> simp [hmap]
    · intro r hr
      rw [analyze_sentiment] at hr
      rw [analyze_sentiment]
      split at hr
      · exact absurd hr (by simp)
      · rename_i h
        rw [Option.some_inj] at hr
        subst hr
        rw [if_neg h]
  · exact ⟨by with_unfolding_all decide, by with_unfolding_all decide⟩

/-- C4 counterexample: all three tables present, positive operating cash
flow, revenue and total assets, but no net-income row: the Piotroski score
is not computed at all (None), so a missing required row can prevent the
whole score, not merely fail its own test. -/
theorem piotroski_missing_row_aborts :
    (compute_key_metrics emptyInfo (some [("Total Revenue", [100, 90])])
        (some [("Total Assets", [50, 40])])
        (some [("Operating Cash Flow", [10, 5])])).piotroski_score = none := by
  with_unfolding_all decide

/-- C4 (amended): provided all three tables are given and the net-income
and total-assets rows each have at least two periods, the score is always
computed: all nine tests are evaluated, each from its own rows only, a
missing long-term-debt row makes test 5 pass and a missing shares row makes
test 7 pass, and the score counts the passing tests; on the claim's fixture
(two periods of positive net income, ROA and operating cash flow, cash flow
below net income, no other rows) the score is exactly 3 + 2 = 5. -/
theorem piotroski_guarded_robustness :
    (∀ info ai ab cf ni ta,
      safe_get_row (some ai) niLabels = some ni → 2 ≤ ni.length →
      safe_get_row (some ab) taLabels = some ta → 2 ≤ ta.length →
      (compute_key_metrics info (some ai) (some ab) (some cf)).piotroski_details =
        some (pioDetails ni ta (safe_get_row (some cf) cfoLabels)
          (safe_get_row (some ab) ltdLabels) (safe_get_row (some ab) caLabels)
          (safe_get_row (some ab) clLabels) (safe_get_row (some ab) sharesLabels)
          (safe_get_row (some ai) gpLabels) (safe_get_row (some ai) revLabels)) ∧
      (compute_key_metrics info (some ai) (some ab) (some cf)).piotroski_score =
        some ((pioDetails ni ta (safe_get_row (some cf) cfoLabels)
          (safe_get_row (some ab) ltdLabels) (safe_get_row (some ab) caLabels)
          (safe_get_row (some ab) clLabels) (safe_get_row (some ab) sharesLabels)
          (safe_get_row (some ai) gpLabels) (safe_get_row (some ai) revLabels)).countP
            fun p => p.2)) ∧
    (pioTest5 none = true ∧ pioTest7 none = true) ∧
    ((compute_key_metrics emptyInfo (some [("Net Income", [10, 8])])
        (some [("Total Assets", [100, 90])])
        (some [("Operating Cash Flow", [5, 4])])).piotroski_score = some 5 ∧
     (compute_key_metrics emptyInfo (some [("Net Income", [10, 8])])
        (some [("Total Assets", [100, 90])])
        (some [("Operating Cash Flow", [5, 4])])).piotroski_details =
       some [("Net Income > 0", true), ("ROA > 0", true), ("Operating Cash Flow > 0", true),
             ("Cash Flow > Net Income", false), ("Long-term Debt Decreased", true),
             ("Current Ratio Increased", false), ("No New Shares Issued", true),
             ("Gross Margin Increased", false), ("Asset Turnover Increased", false)]) := by
  refine ⟨?_, ⟨rfl, rfl⟩, by with_unfolding_all decide, by with_unfolding_all decide⟩
  intro info ai ab cf ni ta hni h2ni hta h2ta
  have h : piotroskiMetrics (some ai) (some ab) (some cf) =
      (some ((pioDetails ni ta (safe_get_row (some cf) cfoLabels)
          (safe_get_row (some ab) ltdLabels) (safe_get_row (some ab) caLabels)
          (safe_get_row (some ab) clLabels) (safe_get_row (some ab) sharesLabels)
          (safe_get_row (some ai) gpLabels) (safe_get_row (some ai) revLabels)).countP
            fun p => p.2),
       some (pioDetails ni ta (safe_get_row (some cf) cfoLabels)
          (safe_get_row (some ab) ltdLabels) (safe_get_row (some ab) caLabels)
          (safe_get_row (some ab) clLabels) (safe_get_row (some ab) sharesLabels)
          (safe_get_row (some ai) gpLabels) (safe_get_row (some ai) revLabels))) := by
    simp only [piotroskiMetrics, hni, hta]
    rw [if_pos ⟨h2ni, h2ta⟩]
  constructor
  · show (piotroskiMetrics (some ai) (some ab) (some cf)).2 = _
    rw [h]
  · show (piotroskiMetrics (some ai) (some ab) (some cf)).1 = _
    rw [h]

/-! ## Screener demo oracles: 5 tickers, one raising, one with insufficient
data on all three scorers. -/

/-- A data bundle every scorer succeeds on: 50 closes, a profit margin. -/
def screenerGoodData : StockData :=
  { history := List.replicate 50 100
    info := { emptyInfo with sector := some "Tech", profitMargins := some (1/4) }
    quarterly_income := none
    quarterly_balance := none
    annual_income := none
    annual_balance := none
    cashflow := none }

/-- A data bundle every scorer fails on: no price history, empty info. -/
def screenerBareData : StockData :=
  { history := []
    info := emptyInfo
    quarterly_income := none
    quarterly_balance := none
    annual_income := none
    annual_balance := none
    cashflow := none }

/-- Fetch oracle: ticker TB raises during fetch, TD returns data that gives
insufficient data on all three scorers, the rest succeed. -/
def screenerDemoFetch : String → FetchOutcome := fun ticker =>
  if ticker = "TB" then FetchOutcome.raises
  else if ticker = "TD" then FetchOutcome.ok screenerBareData
  else FetchOutcome.ok screenerGoodData

/-- News oracle: no headlines for stock D, one headline otherwise. -/
def screenerDemoNews : String → String → String → NewsDict := fun name _ _ =>
  if name = "D" then NewsDict.mk [] [] []
  else NewsDict.mk [Headline.mk "up" none] [] []

def screenerDemoVader : String → ℚ := fun _ => 1/2

def screenerDemoList : List (String × String) :=
  [("A", "TA"), ("B", "TB"), ("C", "TC"), ("D", "TD"), ("E", "TE")]

/-- C2: the screener never lets one entry's failure abort the batch: it
equals filterMap of the per-entry pipeline, so an entry whose fetch raises
or whose composite prediction is not "ok" is silently skipped and exactly
one row per successfully predicted security appears, in input order; on the
5-ticker demo (one raising fetch, one insufficient on all three scorers)
exactly the 3 remaining rows survive, in the original order. -/
theorem run_screener_skips_failures :
    (∀ fetch newsFor vader market (stock_list : List (String × String)),
      run_screener fetch newsFor vader market stock_list =
        stock_list.filterMap (screenEntry fetch newsFor vader market)) ∧
    ((run_screener screenerDemoFetch screenerDemoNews screenerDemoVader "India"
        screenerDemoList).map (fun r => (r.stock, r.ticker)) =
      [("A", "TA"), ("C", "TC"), ("E", "TE")]) := by
  constructor
  · intro fetch newsFor vader market stock_list
    induction stock_list with
    | nil => rfl
    | cons e rest ih =>
      obtain ⟨name, ticker⟩ := e
      simp only [run_screener, screenEntry, List.filterMap_cons]
      cases fetch ticker with
      | raises => exact ih
      | fail => exact ih
      | ok sd =>
        simp only []
        split
        · rename_i heq
          simp only [heq, ih]
        · rename_i p heq
          simp only [heq, ih]
  · with_unfolding_all decide

/-- C10: whenever the fetch succeeds and the composite prediction is "ok"
(even with only a proper subset of the three scorers "ok"), the screener
emits the row; its per-scorer score cells are the scorers' mapped scores,
hence None exactly for each non-"ok" scorer, and CMP is None when the
technical scorer failed; on the demo input with no price history the row is
emitted with tech score and CMP both None. -/
theorem screener_row_none_fields :
    (∀ fetch newsFor vader market (name ticker : String) sd,
      fetch ticker = FetchOutcome.ok sd →
      ∀ p, generate_prediction
          ((calculate_technical_indicators (some sd.history)).map TechOk.score)
          (((analyze_sentiment vader
              (newsFor name (get_stock_sector sd.info) market)).1).map SentimentOk.score)
          ((analyze_fundamentals sd.quarterly_income sd.info
              sd.quarterly_balance).map FundOk.score) = some p →
      ∃ row, screenEntry fetch newsFor vader market (name, ticker) = some row ∧
        row.tech_score = (calculate_technical_indicators (some sd.history)).map TechOk.score ∧
        row.cmp = (calculate_technical_indicators (some sd.history)).map TechOk.current_price ∧
        row.sentiment_score = ((analyze_sentiment vader
          (newsFor name (get_stock_sector sd.info) market)).1).map SentimentOk.score ∧
        row.fundamental_score = (analyze_fundamentals sd.quarterly_income sd.info
          sd.quarterly_balance).map FundOk.score ∧
        (calculate_technical_indicators (some sd.history) = none →
          row.tech_score = none ∧ row.cmp = none) ∧
        ((analyze_sentiment vader (newsFor name (get_stock_sector sd.info) market)).1 = none →
          row.sentiment_score = none) ∧
        (analyze_fundamentals sd.quarterly_income sd.info sd.quarterly_balance = none →
          row.fundamental_score = none)) ∧
    ((screenEntry (fun _ => FetchOutcome.ok
        { screenerBareData with info := { emptyInfo with profitMargins := some (1/4) } })
        (fun _ _ _ => NewsDict.mk [Headline.mk "up" none] [] [])
        screenerDemoVader "India" ("X", "TX")).map
        (fun row => (row.tech_score, row.cmp, row.sentiment_score.isSome,
          row.fundamental_score.isSome)) = some (none, none, true, true)) := by
  constructor
  · intro fetch newsFor vader market name ticker sd hf p hp
    have hrow : screenEntry fetch newsFor vader market (name, ticker) = some
        { stock := name
          ticker := ticker
          action := p.action
          confidence := p.confidence
          score := p.score
          tech_score := (calculate_technical_indicators (some sd.history)).map TechOk.score
          sentiment_score := ((analyze_sentiment vader
            (newsFor name (get_stock_sector sd.info) market)).1).map SentimentOk.score
          fundamental_score := (analyze_fundamentals sd.quarterly_income sd.info
            sd.quarterly_balance).map FundOk.score
          pe := (compute_key_metrics sd.info sd.annual_income sd.annual_balance
            sd.cashflow).pe_ratio
          pb := (compute_key_metrics sd.info sd.annual_income sd.annual_balance
            sd.cashflow).price_to_book
          roe := (compute_key_metrics sd.info sd.annual_income sd.annual_balance
            sd.cashflow).roe_latest
          roce := (compute_key_metrics sd.info sd.annual_income sd.annual_balance
            sd.cashflow).roce_latest
          piotroski := (compute_key_metrics sd.info sd.annual_income sd.annual_balance
            sd.cashflow).piotroski_score
          de := (compute_key_metrics sd.info sd.annual_income sd.annual_balance
            sd.cashflow).debt_to_equity
          current_ratio := (compute_key_metrics sd.info sd.annual_income sd.annual_balance
            sd.cashflow).current_ratio
          market_cap := (compute_key_metrics sd.info sd.annual_income sd.annual_balance
            sd.cashflow).market_cap
          cmp := (calculate_technical_indicators (some sd.history)).map
            TechOk.current_price } := by
      simp only [screenEntry, hf, hp]
    refine ⟨_, hrow, rfl, rfl, rfl, rfl, ?_, ?_, ?_⟩
    · intro h
      simp [h]
    · intro h
      simp [h]
    · intro h
      simp [h]
  · with_unfolding_all decide

/-- Witness for C8 at the concrete constant series of 50 closes at 100. -/
theorem rsi_zero_loss_max_overbought_witness :
    50 ≤ (List.replicate 50 (100 : ℚ)).length ∧
    avgLoss14 (List.replicate 50 (100 : ℚ)) = 0 ∧
    (calculate_technical_indicators (some (List.replicate 50 (100 : ℚ)))).map
      (fun r => (r.rsi_value, r.rsi_signal)) = some (100, -1) :=
  ⟨by with_unfolding_all decide, by with_unfolding_all decide,
   rsi_zero_loss_max_overbought (List.replicate 50 (100 : ℚ)) (by with_unfolding_all decide) (by with_unfolding_all decide)⟩

end StockPredictor
